import Mathlib

/-!
Shallow embedding of `dlbs/utils.py` (classes `DictUtils`,
`ConfigurationLoader` and `ResourceMonitor`) together with proofs about the
configuration-merging and sample-decoding behaviour of that module.

Python dictionaries are modelled as association lists `List (String × JVal)`
iterated in insertion order; Python exceptions become an explicit
`Except PyError` result; `copy.deepcopy` is the identity on immutable Lean
values.
-/

/-- The kinds of Python exceptions the embedded code can raise.  `assert`
statements raise `assertionError`; `dlbs.exceptions.ConfigurationError` is a
distinct kind.  Message texts are abbreviated forms of the source's format
strings (no claim depends on assertion-message contents). -/
inductive PyError where
  | assertionError (msg : String)
  | configurationError (msg : String)
  | valueError (msg : String)
  | indexError (msg : String)
  | typeError (msg : String)
deriving Repr, DecidableEq

/-- `true` exactly for the `ConfigurationError` exception kind. -/
def PyError.isConfigError : PyError → Bool
  | .configurationError _ => true
  | _ => false

/-- JSON-like Python values: `None`, `bool`, `int`, `float`, `str`, `list`,
`dict`.  A Python float is represented by the exact decimal fraction
`num / den` its literal denotes (the embedded code only parses and stores
floats, it never computes with them, so no rounding behaviour is
involved). -/
inductive JVal where
  | jnull
  | jbool (b : Bool)
  | jint (n : Int)
  | jfloat (num : Int) (den : Nat)
  | jstr (s : String)
  | jlist (xs : List JVal)
  | jobj (kvs : List (String × JVal))
deriving Repr

/-- `d[k]` lookup for an association-list dictionary (first binding wins,
mirroring the key uniqueness of Python dicts). -/
def pyLookup {α : Type} (d : List (String × α)) (k : String) : Option α :=
  match d with
  | [] => none
  | (k', v) :: rest => if k' = k then some v else pyLookup rest k

/-- Replace the value bound to `k` (no-op when `k` is absent). -/
def setKey (d : List (String × JVal)) (k : String) (v : JVal) :
    List (String × JVal) :=
  match d with
  | [] => []
  | (k', v') :: rest =>
    if k' = k then (k, v) :: rest else (k', v') :: setKey rest k v

/-- Python `d[k] = v`: overwrite when present, append when new. -/
def dictSet (d : List (String × JVal)) (k : String) (v : JVal) :
    List (String × JVal) :=
  if (pyLookup d k).isSome then setKey d k v else d ++ [(k, v)]

/-- The numeric value of a Python scalar as an exact fraction, when it has
one:  Python 2 compares `bool`, `int` and `float` values numerically
(`True == 1`, `1 == 1.0`). -/
def numVal : JVal → Option (Int × Nat)
  | .jbool b => some (if b then 1 else 0, 1)
  | .jint n => some (n, 1)
  | .jfloat n d => some (n, d)
  | _ => none

/-- Equality of the exact fractions produced by `numVal`
(cross-multiplication; every denominator produced is positive). -/
def fracEq (a b : Int × Nat) : Bool := a.1 * b.2 == b.1 * a.2

mutual
/-- Deep structural part of Python `==` for containers. -/
def pyEqDeep : JVal → JVal → Bool
  | a, b =>
    match numVal a, numVal b with
    | some x, some y => fracEq x y
    | _, _ =>
      match a, b with
      | .jnull, .jnull => true
      | .jstr s, .jstr t => s == t
      | .jlist xs, .jlist ys => pyEqDeepL xs ys
      | .jobj xs, .jobj ys => pyEqDeepO xs ys
      | _, _ => false

/-- Elementwise Python `==` on lists. -/
def pyEqDeepL : List JVal → List JVal → Bool
  | [], [] => true
  | x :: xs, y :: ys => pyEqDeep x y && pyEqDeepL xs ys
  | _, _ => false

/-- Entrywise Python `==` on dicts, modelled order-sensitively on the
association lists (the embedded code never compares two dicts). -/
def pyEqDeepO : List (String × JVal) → List (String × JVal) → Bool
  | [], [] => true
  | (k, v) :: xs, (l, w) :: ys => k == l && pyEqDeep v w && pyEqDeepO xs ys
  | _, _ => false
end

/-- Python `==` on values: numeric scalars compare by value, everything else
structurally.  Non-recursive at the top level so that concrete scalar
comparisons reduce definitionally. -/
def pyEq (a b : JVal) : Bool :=
  match numVal a, numVal b with
  | some x, some y => fracEq x y
  | _, _ =>
    match a, b with
    | .jnull, .jnull => true
    | .jstr s, .jstr t => s == t
    | .jlist xs, .jlist ys => pyEqDeepL xs ys
    | .jobj xs, .jobj ys => pyEqDeepO xs ys
    | _, _ => false

/-- Splitting a character list at every occurrence of the character `sep`,
keeping empty pieces: the behaviour of Python `str.split(sep)` for a
one-character separator (all separators in the source are one character). -/
def splitOnChar (sep : Char) (cs : List Char) : List (List Char) :=
  match cs with
  | [] => [[]]
  | c :: rest =>
    let r := splitOnChar sep rest
    if c = sep then [] :: r
    else
      match r with
      | t :: ts => (c :: t) :: ts
      | [] => [[c]]

/-- `String`-level wrapper around `splitOnChar`. -/
def pySplitChar (s : String) (sep : Char) : List String :=
  (splitOnChar sep s.data).map (fun l => (⟨l⟩ : String))

/-- Splitting a character list at every single whitespace character. -/
def splitAtWs (cs : List Char) : List (List Char) :=
  match cs with
  | [] => [[]]
  | c :: rest =>
    let r := splitAtWs rest
    if c.isWhitespace then [] :: r
    else
      match r with
      | t :: ts => (c :: t) :: ts
      | [] => [[c]]

/-- Python `str.split()` with no argument: split on whitespace runs,
discarding empty pieces (so leading/trailing whitespace is ignored). -/
def pySplitWs (s : String) : List String :=
  ((splitAtWs s.data).filter (fun t => t ≠ [])).map (fun l => (⟨l⟩ : String))

/-- Python `str.strip()`: remove leading and trailing whitespace. -/
def pyStrip (s : String) : String :=
  ⟨((s.data.dropWhile Char.isWhitespace).reverse.dropWhile Char.isWhitespace).reverse⟩

/-- Python `str.lower()` (the values used are ASCII). -/
def strLower (s : String) : String := ⟨s.data.map Char.toLower⟩

/-- Whether `pat` occurs as a contiguous sublist of the second argument. -/
def containsSub (pat : List Char) : List Char → Bool
  | [] => pat.isEmpty
  | c :: rest => pat.isPrefixOf (c :: rest) || containsSub pat rest

/-- Whether `s` contains `pat` as a contiguous substring. -/
def strContains (s pat : String) : Bool := containsSub pat.data s.data

/-- Value of an all-digit character list. -/
def digitsToNat (ds : List Char) : Nat :=
  ds.foldl (fun n c => n * 10 + (c.toNat - 48)) 0

/-- Python `int(string)`: optional surrounding whitespace, optional sign,
then decimal digits; anything else raises `ValueError` (here `none`). -/
def pyIntOfString (s : String) : Option Int :=
  let t := (pyStrip s).data
  let sgn : Int := if t.head? = some '-' then -1 else 1
  let ds := if t.head? = some '-' ∨ t.head? = some '+' then t.drop 1 else t
  if ds ≠ [] ∧ ds.all Char.isDigit then some (sgn * digitsToNat ds)
  else none

/-- Python `float(string)` restricted to plain decimal literals
(optional sign, digits with an optional fractional part), the only forms the
monitor's sample lines contain; the result is the exact fraction
`num / 10 ^ |fractional part|` the literal denotes. -/
def pyFloatOfString (s : String) : Option (Int × Nat) :=
  let t := (pyStrip s).data
  let sgn : Int := if t.head? = some '-' then -1 else 1
  let body := if t.head? = some '-' ∨ t.head? = some '+' then t.drop 1 else t
  match splitOnChar '.' body with
  | [ip] =>
    if ip ≠ [] ∧ ip.all Char.isDigit then some (sgn * digitsToNat ip, 1)
    else none
  | [ip, fp] =>
    if (ip ≠ [] ∨ fp ≠ []) ∧ ip.all Char.isDigit ∧ fp.all Char.isDigit
    then some (sgn * (digitsToNat ip * 10 ^ fp.length + digitsToNat fp), 10 ^ fp.length)
    else none
  | _ => none

/-- The two match policies accepted by `DictUtils.match` (the source asserts
the policy string is one of `relaxed`, `strict`). -/
inductive Policy where
  | relaxed
  | strict
deriving Repr, DecidableEq

namespace DictUtils

/-- Store the capture groups of a successful pattern match:
`matches[field_i] = group(i)` for each group, 1-based; a `None` group is
stored as `jnull`. -/
def addGroups (c : List (String × JVal)) (field : String)
    (groups : List (Option String)) : List (String × JVal) :=
  groups.enum.foldl
    (fun acc ig =>
      dictSet acc (field ++ "_" ++ toString (ig.1 + 1))
        (match ig.2 with | some s => JVal.jstr s | none => JVal.jnull)) c

/-- `DictUtils.match(dictionary, query, policy, matches)` from the source.
The regular-expression engine (`re.match`) is an external collaborator and is
passed in as `rmatch pattern string`, returning `none` on no match and the
list of capture groups on a match.  The result is the boolean outcome paired
with the final state of the optional `matches` capture dictionary; applying a
string pattern to a non-string document value is a `TypeError`, as in
Python. -/
def matchDoc (rmatch : String → String → Option (List (Option String)))
    (dictionary : List (String × JVal)) (query : List (String × JVal))
    (policy : Policy) (captures : Option (List (String × JVal))) :
    Except PyError (Bool × Option (List (String × JVal))) :=
  match query with
  | [] => .ok (true, captures)
  | (field, value) :: rest =>
    match pyLookup dictionary field with
    | none =>
      match policy with
      | .relaxed => matchDoc rmatch dictionary rest policy captures
      | .strict => .ok (false, captures)
    | some dv =>
      match value with
      | .jstr pat =>
        match dv with
        | .jstr s =>
          match rmatch pat s with
          | none => .ok (false, captures)
          | some groups =>
            matchDoc rmatch dictionary rest policy
              (captures.map (fun c =>
                addGroups (dictSet c (field ++ "_0") dv) field groups))
        | _ => .error (.typeError "expected string or buffer")
      | _ =>
        let values := match value with | .jlist vs => vs | v => [v]
        if values.any (fun w => pyEq dv w) then
          matchDoc rmatch dictionary rest policy
            (captures.map (fun c => dictSet c (field ++ "_0") dv))
        else .ok (false, captures)

end DictUtils

namespace ConfigurationLoader

/-- `type(val).__name__` for the Python values a JSON parse can produce. -/
def typeName : JVal → String
  | .jnull => "NoneType"
  | .jbool _ => "bool"
  | .jint _ => "int"
  | .jfloat _ _ => "float"
  | .jstr _ => "str"
  | .jlist _ => "list"
  | .jobj _ => "dict"

/-- The inferred type tag for a bare parameter value:
`'str' if isinstance(val, basestring) or isinstance(val, list) else
type(val).__name__`. -/
def inferValType : JVal → String
  | .jstr _ => "str"
  | .jlist _ => "str"
  | v => typeName v

/-- `param_info[name]['val'] = v` — item assignment on the stored descriptor,
a `TypeError` when the stored value is not a dict (never the case for
descriptors built by this module). -/
def setInfoVal (info v : JVal) : Except PyError JVal :=
  match info with
  | .jobj f => .ok (.jobj (dictSet f "val" v))
  | _ => .error (.typeError "item assignment on non-dict parameter info")

/-- The `for name in params` loop body of `update_param_info`, iterating the
entries of the `parameters` section in order and threading `param_info`. -/
def upiGo (param_info : List (String × JVal)) (ps : List (String × JVal))
    (is_user_config : Bool) : Except PyError (List (String × JVal)) :=
  match ps with
  | [] => .ok param_info
  | (name, val) :: rest =>
    if ¬is_user_config ∧ (pyLookup param_info name).isSome then
      .error (.assertionError ("Trying to redefine parameter " ++ name))
    else
      match val with
      | .jobj vf =>
        match pyLookup vf "val" with
        | none =>
          .error (.assertionError ("Invalid parameter definition " ++ name))
        | some v =>
          match pyLookup param_info name with
          | none => upiGo (dictSet param_info name (.jobj vf)) rest is_user_config
          | some info => do
            let info' ← setInfoVal info v
            upiGo (dictSet param_info name info') rest is_user_config
      | v =>
        let vt := inferValType v
        if vt = "int" ∨ vt = "str" ∨ vt = "float" ∨ vt = "bool" then
          match pyLookup param_info name with
          | none =>
            upiGo
              (dictSet param_info name
                (.jobj [("val", v), ("type", .jstr vt),
                  ("desc", .jstr "No description for this parameter provided (it was automatically converted from its value).")]))
              rest is_user_config
          | some info => do
            let info' ← setInfoVal info v
            upiGo (dictSet param_info name info') rest is_user_config
        else .error (.assertionError ("Unsupported type of a parameter " ++ vt))

/-- `ConfigurationLoader.update_param_info(param_info, config, is_user_config)`
from the source.  A present `parameters` value that is not a mapping is
modelled as a `TypeError` (iterating/indexing it in Python fails with
type-dependent errors; no caller produces one). -/
def update_param_info (param_info : List (String × JVal))
    (config : List (String × JVal)) (is_user_config : Bool) :
    Except PyError (List (String × JVal)) :=
  match pyLookup config "parameters" with
  | none => .ok param_info
  | some (.jobj ps) => upiGo param_info ps is_user_config
  | some _ => .error (.typeError "parameters section is not a mapping")

/-- The per-entry cleaning loop of `remove_info`: a dict-valued entry must
carry `val` and is replaced by it, any other value passes through. -/
def cleanParams (ps : List (String × JVal)) :
    Except PyError (List (String × JVal)) :=
  match ps with
  | [] => .ok []
  | (name, val) :: rest =>
    match val with
    | .jobj f =>
      match pyLookup f "val" with
      | some w => do
        let rest' ← cleanParams rest
        .ok ((name, w) :: rest')
      | none => .error (.assertionError ("Invalid parameter definition " ++ name))
    | v => do
      let rest' ← cleanParams rest
      .ok ((name, v) :: rest')

/-- `ConfigurationLoader.remove_info(config)` from the source: deep-copies the
document and replaces each descriptor object in its `parameters` section by
the descriptor's `val` field.  The Lean embedding is a pure function, which is
exactly the deepcopy-then-mutate discipline of the source: the argument is
never modified.  A present non-mapping `parameters` value is modelled as a
`TypeError`, as in `update_param_info`. -/
def remove_info (config : List (String × JVal)) :
    Except PyError (List (String × JVal)) :=
  match pyLookup config "parameters" with
  | none => .ok config
  | some (.jobj ps) => do
    let ps' ← cleanParams ps
    .ok (setKey config "parameters" (.jobj ps'))
  | some _ => .error (.typeError "parameters section is not a mapping")

/-- `True` when the value is a Python instance of
`(basestring, int, float, long)` — the `both_primitive` membership test of
`update` (note `bool` is an `int` subclass in Python). -/
def isPrimitive : JVal → Bool
  | .jstr _ => true
  | .jint _ => true
  | .jfloat _ _ => true
  | .jbool _ => true
  | _ => false

/-- `type(a) is type(b)` on the embedded values: same Python runtime type
(`bool` and `int` are distinct types even though `bool` subclasses `int`). -/
def sameType (a b : JVal) : Bool := typeName a == typeName b

/-- `ConfigurationLoader.update(dest, source, is_root)` from the source:
iterate over `source`'s keys in order; a new key is deep-copied into `dest`;
for an existing key, at root level two dicts merge recursively as non-root
and two lists extend the destination (anything else fails the root assert),
while at non-root level two lists or two same-type primitives overwrite the
destination (anything else fails the member assert). -/
def update (dest : List (String × JVal)) (source : List (String × JVal))
    (is_root : Bool) : Except PyError (List (String × JVal)) :=
  match source with
  | [] => .ok dest
  | (key, sval) :: rest =>
    match pyLookup dest key with
    | none => update (dest ++ [(key, sval)]) rest is_root
    | some dval =>
      match dval, sval with
      | .jobj dobj, .jobj sobj =>
        if is_root then do
          let merged ← update dobj sobj false
          update (setKey dest key (.jobj merged)) rest is_root
        else
          .error (.assertionError "Members of configuration must be either lists or primitive types")
      | .jlist dl, .jlist sl =>
        if is_root then update (setKey dest key (.jlist (dl ++ sl))) rest is_root
        else update (setKey dest key (.jlist sl)) rest is_root
      | dv, sv =>
        if is_root then
          .error (.assertionError "In root configuration objects, only dictionaries and lists are allowed.")
        else if sameType dv sv ∧ isPrimitive dv then
          update (setKey dest key sv) rest is_root
        else
          .error (.assertionError "Members of configuration must be either lists or primitive types")
termination_by sizeOf source

/-- The per-file loop of `ConfigurationLoader.load`.  File discovery and IO
are external; each file is given as its path together with the outcome of
`json.load` on its contents (`Except String` carries the `ValueError`
message of a failed parse).  A failed parse is logged and the original error
re-raised unchanged; a parsed section first updates `param_info`
(`is_user_config=False`), is then stripped via `remove_info` and merged into
the running `config` as a root merge. -/
def loadGo (config param_info : List (String × JVal))
    (files : List (String × Except String (List (String × JVal)))) :
    Except PyError (List (String × JVal) × List (String × JVal)) :=
  match files with
  | [] => .ok (config, param_info)
  | (_, .error msg) :: _ => .error (.valueError msg)
  | (_, .ok sec) :: rest => do
    let pi' ← update_param_info param_info sec false
    let clean ← remove_info sec
    let cfg' ← update config clean true
    loadGo cfg' pi' rest

/-- `ConfigurationLoader.load` over the resolved file list: returns the file
names, the merged configuration and the parameter info. -/
def load (files : List (String × Except String (List (String × JVal)))) :
    Except PyError (List String × List (String × JVal) × List (String × JVal)) := do
  let (cfg, pi) ← loadGo [] [] files
  .ok (files.map Prod.fst, cfg, pi)

end ConfigurationLoader

namespace ResourceMonitor

/-- One parsed field specification: decode type, zero-based token index and
repeat count (`-1` = bare scalar, `0` = scalar wrapped in a one-element list,
`n > 0` = a slice of `n` tokens). -/
structure FieldInfo where
  type : String
  index : Int
  count : Int
deriving Repr, DecidableEq

/-- Validation and decoding of one `name:type:index[:count]` entry, given
whether the name already occurs (`dup`), in the source's assert order:
duplicate name, then field type, then `int(index)`, then `int(count)` with
the empty count of a trailing colon mapping to `0`. -/
def mkField (dup : Bool) (tp ix : String) (ct : Option String) :
    Except PyError FieldInfo :=
  if dup then .error (.assertionError "Found duplicate timeseries field")
  else if ¬(tp = "str" ∨ tp = "int" ∨ tp = "float" ∨ tp = "bool") then
    .error (.assertionError ("Invalid field type " ++ tp))
  else
    match pyIntOfString ix with
    | none => .error (.valueError ("invalid literal for int() " ++ ix))
    | some index =>
      match ct with
      | none => .ok ⟨tp, index, -1⟩
      | some c =>
        if c = "" then .ok ⟨tp, index, 0⟩
        else
          match pyIntOfString c with
          | none => .error (.valueError ("invalid literal for int() " ++ c))
          | some count => .ok ⟨tp, index, count⟩

/-- The `for raw_field in raw_fields` loop of `ResourceMonitor.__init__`,
accumulating `self.fields` in insertion order. -/
def pfsGo (acc : List (String × FieldInfo)) (raws : List String) :
    Except PyError (List (String × FieldInfo)) :=
  match raws with
  | [] => .ok acc
  | raw :: rest =>
    match pySplitChar raw ':' with
    | [nm, tp, ix] => do
      let fi ← mkField (pyLookup acc nm).isSome tp ix none
      pfsGo (acc ++ [(nm, fi)]) rest
    | [nm, tp, ix, ct] => do
      let fi ← mkField (pyLookup acc nm).isSome tp ix (some ct)
      pfsGo (acc ++ [(nm, fi)]) rest
    | _ => .error (.assertionError "Invalid format of field specification")

/-- The field-spec parsing of `ResourceMonitor.__init__`: split the spec
string on commas and build `self.fields`. -/
def parseFieldsSpecs (fields_specs : String) :
    Except PyError (List (String × FieldInfo)) :=
  pfsGo [] (pySplitChar fields_specs ',')

/-- `ResourceMonitor.str_to_type(str_val, val_type)` from the source.  In the
`bool` branch the source lowercases, asserts membership in
`('true', 'false', '1', '0', 'on', 'off')` and then returns
`v in ('true', 1, 'on')` — that tuple contains the *integer* `1`, which no
string equals, so only `"true"` and `"on"` yield `True`. -/
def str_to_type (str_val : String) (val_type : String) : Except PyError JVal :=
  if val_type = "str" then .ok (.jstr str_val)
  else if val_type = "int" then
    match pyIntOfString str_val with
    | some n => .ok (.jint n)
    | none => .error (.valueError ("invalid literal for int() " ++ str_val))
  else if val_type = "float" then
    match pyFloatOfString str_val with
    | some q => .ok (.jfloat q.1 q.2)
    | none => .error (.valueError ("could not convert string to float " ++ str_val))
  else if val_type = "bool" then
    let v := strLower str_val
    if v = "true" ∨ v = "false" ∨ v = "1" ∨ v = "0" ∨ v = "on" ∨ v = "off" then
      .ok (.jbool (v = "true" ∨ v = "on"))
    else .error (.assertionError ("Invalid boolean value in string " ++ str_val))
  else .error (.assertionError ("Invalid value type " ++ val_type))

/-- Python list indexing `data[i]`: negative indices count from the end,
anything out of range raises `IndexError`. -/
def pyListGet (data : List String) (i : Int) : Except PyError String :=
  let j := if i < 0 then i + data.length else i
  if 0 ≤ j then
    match data[j.toNat]? with
    | some s => .ok s
    | none => .error (.indexError "list index out of range")
  else .error (.indexError "list index out of range")

/-- The series entry one field contributes for one tokenized sample line:
`count = -1` appends the decoded scalar, `count = 0` appends a one-element
list, otherwise the decode of `data[index:index+count]` token by token
(`xrange(idx, idx+count)`). -/
def decodeEntry (data : List String) (fi : FieldInfo) : Except PyError JVal :=
  if fi.count = -1 then do
    let s ← pyListGet data fi.index
    str_to_type s fi.type
  else if fi.count = 0 then do
    let s ← pyListGet data fi.index
    let v ← str_to_type s fi.type
    .ok (.jlist [v])
  else do
    let vs ← (List.range fi.count.toNat).mapM (fun k => do
      let s ← pyListGet data (fi.index + k)
      str_to_type s fi.type)
    .ok (.jlist vs)

/-- `metrics[name].append(v)` on the metrics map. -/
def appendMetric (metrics : List (String × List JVal)) (name : String)
    (v : JVal) : List (String × List JVal) :=
  match metrics with
  | [] => []
  | (k, vs) :: rest =>
    if k = name then (k, vs ++ [v]):: rest
    else (k, vs) :: appendMetric rest name v

/-- The `for field in self.fields` loop of `get_measurements` for one
dequeued line. -/
def processLine (data : List String) (fields : List (String × FieldInfo))
    (metrics : List (String × List JVal)) :
    Except PyError (List (String × List JVal)) :=
  match fields with
  | [] => .ok metrics
  | (name, fi) :: rest => do
    let v ← decodeEntry data fi
    processLine data rest (appendMetric metrics name v)

/-- `ResourceMonitor.get_measurements` from the source, over the parsed
`fields` and the list of raw lines currently in the queue (the
multiprocessing queue drained in FIFO order is external): initialize every
configured field to an empty series, then decode each line in turn. -/
def get_measurements (fields : List (String × FieldInfo))
    (queue : List String) : Except PyError (List (String × List JVal)) :=
  queue.foldlM
    (fun metrics line => processLine (pySplitWs (pyStrip line)) fields metrics)
    (fields.map (fun p => (p.1, ([] : List JVal))))

end ResourceMonitor

/-- The bare value a `remove_info` pass leaves for one parameter entry: a
descriptor object collapses to its `val` field, anything else passes
through. -/
def ConfigurationLoader.bareVal (v : JVal) : JVal :=
  match v with
  | .jobj f => (pyLookup f "val").getD (.jobj f)
  | w => w

/-- `true` exactly on dict values. -/
def JVal.isObj : JVal → Bool
  | .jobj _ => true
  | _ => false

/-- A parameter entry `remove_info` accepts: a dict value must carry a
`val` field, any other value is unconstrained. -/
def descOk : JVal → Bool
  | .jobj f => (pyLookup f "val").isSome
  | _ => true

section DictLemmas

theorem pyLookup_setKey_self {d : List (String × JVal)} {k : String}
    (v : JVal) (h : (pyLookup d k).isSome) :
    pyLookup (setKey d k v) k = some v := by
  induction d with
  | nil => simp [pyLookup] at h
  | cons hd tl ih =>
    obtain ⟨k', v'⟩ := hd
    by_cases hk : k' = k
    · subst hk
      simp [pyLookup, setKey]
    · simp only [pyLookup, setKey, if_neg hk] at h ⊢
      exact ih h

theorem pyLookup_setKey_other {d : List (String × JVal)} {k key : String}
    (v : JVal) (h : key ≠ k) :
    pyLookup (setKey d k v) key = pyLookup d key := by
  induction d with
  | nil => simp [setKey]
  | cons hd tl ih =>
    obtain ⟨k', v'⟩ := hd
    by_cases hk : k' = k
    · subst hk
      simp only [setKey, if_pos rfl, pyLookup]
      rw [if_neg (fun hh => h hh.symm), if_neg (fun hh => h hh.symm)]
    · simp only [setKey, if_neg hk, pyLookup]
      by_cases hkey : k' = key
      · simp [hkey]
      · rw [if_neg hkey, if_neg hkey, ih]

theorem pyLookup_append_self {d : List (String × JVal)} {k : String}
    (v : JVal) (h : pyLookup d k = none) :
    pyLookup (d ++ [(k, v)]) k = some v := by
  induction d with
  | nil => simp [pyLookup]
  | cons hd tl ih =>
    obtain ⟨k', v'⟩ := hd
    by_cases hk : k' = k
    · simp [pyLookup, hk] at h
    · simp only [pyLookup, if_neg hk, List.cons_append] at h ⊢
      exact ih h

theorem pyLookup_append_other {d : List (String × JVal)} {k key : String}
    (v : JVal) (h : key ≠ k) :
    pyLookup (d ++ [(k, v)]) key = pyLookup d key := by
  induction d with
  | nil =>
    simp only [List.nil_append, pyLookup]
    rw [if_neg (fun hh => h hh.symm)]
  | cons hd tl ih =>
    obtain ⟨k', v'⟩ := hd
    simp only [List.cons_append, pyLookup]
    by_cases hkey : k' = key
    · simp [hkey]
    · rw [if_neg hkey, if_neg hkey]
      exact ih

theorem pyLookup_dictSet_self (d : List (String × JVal)) (k : String)
    (v : JVal) : pyLookup (dictSet d k v) k = some v := by
  unfold dictSet
  by_cases h : (pyLookup d k).isSome
  · rw [if_pos h, pyLookup_setKey_self v h]
  · rw [if_neg h]
    exact pyLookup_append_self v (Option.not_isSome_iff_eq_none.mp h)

theorem pyLookup_dictSet_other (d : List (String × JVal)) {k key : String}
    (v : JVal) (h : key ≠ k) :
    pyLookup (dictSet d k v) key = pyLookup d key := by
  unfold dictSet
  by_cases hs : (pyLookup d k).isSome
  · rw [if_pos hs, pyLookup_setKey_other v h]
  · rw [if_neg hs, pyLookup_append_other v h]

theorem pyLookup_dictSet_isSome (d : List (String × JVal)) (k key : String)
    (v : JVal) :
    (pyLookup (dictSet d k v) key).isSome =
      (key = k || (pyLookup d key).isSome) := by
  by_cases h : key = k
  · subst h
    simp [pyLookup_dictSet_self]
  · simp [pyLookup_dictSet_other d v h, h]

theorem setKey_lookup_eq_self {d : List (String × JVal)} {k : String}
    {v : JVal} (h : pyLookup d k = some v) : setKey d k v = d := by
  induction d with
  | nil => simp [setKey]
  | cons hd tl ih =>
    obtain ⟨k', v'⟩ := hd
    by_cases hk : k' = k
    · subst hk
      rw [pyLookup, if_pos rfl] at h
      simp only [Option.some.injEq] at h
      simp [setKey, h.symm]
    · simp only [pyLookup, if_neg hk] at h
      simp [setKey, hk, ih h]

end DictLemmas

/-- **C1.**  Evaluation of `ResourceMonitor.str_to_type` with type `bool`:
`"on"` decodes to `True` and `"0"` to `False` and `"maybe"` fails the
validity assert, as the claim states; but `"1"` decodes to `False`, not
`True`: the assert admits `'1'` as a valid boolean string (pairing it with
`'0'`), yet the returned membership test `v in ('true', 1, 'on')` contains
the integer `1` rather than the string `'1'`, so `"1"` falls through to
`False` — the code contradicts the evident intent of its own assert. -/
theorem str_to_type_bool_one_bug :
    ResourceMonitor.str_to_type "on" "bool" = .ok (.jbool true) ∧
    ResourceMonitor.str_to_type "0" "bool" = .ok (.jbool false) ∧
    ResourceMonitor.str_to_type "TRUE" "bool" = .ok (.jbool true) ∧
    (ResourceMonitor.str_to_type "maybe" "bool" =
      .error (.assertionError "Invalid boolean value in string maybe")) ∧
    ResourceMonitor.str_to_type "1" "bool" = .ok (.jbool false) :=
  ⟨rfl, rfl, rfl, rfl, rfl⟩

/-- **C8.**  For the field spec `"t:str:0,x:float:1:2"` and the single queued
sample line `"5.0 1.2 3.4"`, `get_measurements` appends the scalar string
`"5.0"` to field `t`'s series and the two-token float slice starting at
index 1 — the floats denoted by `1.2` (= 12/10) and `3.4` (= 34/10) — as one
sequence to field `x`'s series. -/
theorem monitor_decode_example :
    ResourceMonitor.parseFieldsSpecs "t:str:0,x:float:1:2" =
      .ok [("t", ⟨"str", 0, -1⟩), ("x", ⟨"float", 1, 2⟩)] ∧
    ResourceMonitor.get_measurements
      [("t", ⟨"str", 0, -1⟩), ("x", ⟨"float", 1, 2⟩)] ["5.0 1.2 3.4"] =
      .ok [("t", [.jstr "5.0"]),
           ("x", [.jlist [.jfloat 12 10, .jfloat 34 10]])] :=
  ⟨rfl, rfl⟩

/-- **C10.**  `DictUtils.match` is not atomic with respect to its capture
map: on the document `{a: 1, b: 99}` with the two-field query
`{a: [1], b: [2]}` and an (initially empty) capture map, the first field
matches and records `a_0 = 1` into the captures, then the second field fails
and the call returns `False` — with the capture entry for the earlier field
already recorded. -/
theorem match_records_captures_before_failure :
    DictUtils.matchDoc (fun _ _ => none)
      [("a", .jint 1), ("b", .jint 99)]
      [("a", .jlist [.jint 1]), ("b", .jlist [.jint 2])]
      .strict (some []) =
      .ok (false, some [("a_0", .jint 1)]) :=
  rfl

theorem pyEq_jstr_iff (v : JVal) (c : String) :
    pyEq v (.jstr c) = true ↔ v = .jstr c := by
  cases v <;> simp [pyEq, numVal]

/-- **C7.**  `DictUtils.match` against the one-field query `{k: ["a","b"]}`
under `strict` succeeds exactly when the document has key `k` bound to a
member of `{"a","b"}`; and for a document lacking key `missing`, the query
`{missing: "x"}` succeeds under `relaxed` (the field is skipped) and fails
under `strict`.  Quantified over the external regex engine, which none of
these calls consults. -/
theorem match_membership_and_policy
    (rmatch : String → String → Option (List (Option String)))
    (dict : List (String × JVal)) :
    (DictUtils.matchDoc rmatch dict [("k", .jlist [.jstr "a", .jstr "b"])]
        .strict none = .ok (true, none) ↔
      (pyLookup dict "k" = some (.jstr "a") ∨
       pyLookup dict "k" = some (.jstr "b"))) ∧
    (pyLookup dict "missing" = none →
      DictUtils.matchDoc rmatch dict [("missing", .jstr "x")] .relaxed none =
        .ok (true, none) ∧
      DictUtils.matchDoc rmatch dict [("missing", .jstr "x")] .strict none =
        .ok (false, none)) := by
  constructor
  · cases hfind : pyLookup dict "k" with
    | none => simp [DictUtils.matchDoc, hfind]
    | some dv =>
      by_cases ha : dv = .jstr "a"
      · simp [DictUtils.matchDoc, hfind, ha, pyEq, numVal]
      · by_cases hb : dv = .jstr "b"
        · simp [DictUtils.matchDoc, hfind, hb, pyEq, numVal]
        · have hpa : pyEq dv (.jstr "a") = false :=
            (Bool.not_eq_true _).mp (fun hh => ha ((pyEq_jstr_iff dv "a").mp hh))
          have hpb : pyEq dv (.jstr "b") = false :=
            (Bool.not_eq_true _).mp (fun hh => hb ((pyEq_jstr_iff dv "b").mp hh))
          simp [DictUtils.matchDoc, hfind, hpa, hpb, ha, hb]
  · intro h
    exact ⟨by simp [DictUtils.matchDoc, h], by simp [DictUtils.matchDoc, h]⟩

/-- Witness for C7: on the concrete document `{k: "a"}` the strict
membership query succeeds, and the `missing`-field query succeeds under
`relaxed` while failing under `strict`. -/
theorem match_membership_and_policy_witness :
    DictUtils.matchDoc (fun _ _ => none) [("k", .jstr "a")]
      [("k", .jlist [.jstr "a", .jstr "b"])] .strict none = .ok (true, none) ∧
    DictUtils.matchDoc (fun _ _ => none) [("k", .jstr "a")]
      [("missing", .jstr "x")] .relaxed none = .ok (true, none) ∧
    DictUtils.matchDoc (fun _ _ => none) [("k", .jstr "a")]
      [("missing", .jstr "x")] .strict none = .ok (false, none) :=
  ⟨(match_membership_and_policy (fun _ _ => none) [("k", .jstr "a")]).1.mpr
      (Or.inl rfl),
   ((match_membership_and_policy (fun _ _ => none) [("k", .jstr "a")]).2 rfl).1,
   ((match_membership_and_policy (fun _ _ => none) [("k", .jstr "a")]).2 rfl).2⟩

theorem appendMetric_map_fst (m : List (String × List JVal)) (n : String)
    (v : JVal) :
    (ResourceMonitor.appendMetric m n v).map Prod.fst = m.map Prod.fst := by
  induction m with
  | nil => rfl
  | cons hd tl ih =>
    obtain ⟨k, vs⟩ := hd
    by_cases hk : k = n <;> simp [ResourceMonitor.appendMetric, hk, ih]

theorem processLine_map_fst {data : List String}
    {fields : List (String × ResourceMonitor.FieldInfo)}
    {m m' : List (String × List JVal)}
    (h : ResourceMonitor.processLine data fields m = .ok m') :
    m'.map Prod.fst = m.map Prod.fst := by
  induction fields generalizing m with
  | nil =>
    simp only [ResourceMonitor.processLine, Except.ok.injEq] at h
    rw [h]
  | cons hd tl ih =>
    obtain ⟨name, fi⟩ := hd
    simp only [ResourceMonitor.processLine] at h
    cases hde : ResourceMonitor.decodeEntry data fi with
    | error e => rw [hde] at h; simp [Except.bind, bind] at h
    | ok v =>
      rw [hde] at h
      simp only [bind, Except.bind] at h
      rw [ih h, appendMetric_map_fst]

theorem gmFold_map_fst (fields : List (String × ResourceMonitor.FieldInfo)) :
    ∀ (queue : List String) (m m' : List (String × List JVal)),
      queue.foldlM
        (fun metrics line =>
          ResourceMonitor.processLine (pySplitWs (pyStrip line)) fields metrics)
        m = .ok m' →
      m'.map Prod.fst = m.map Prod.fst := by
  intro queue
  induction queue with
  | nil =>
    intro m m' h
    simp only [List.foldlM_nil, pure, Except.pure, Except.ok.injEq] at h
    rw [h]
  | cons line rest ih =>
    intro m m' h
    simp only [List.foldlM_cons] at h
    cases hp : ResourceMonitor.processLine (pySplitWs (pyStrip line)) fields m with
    | error e => rw [hp] at h; simp [Except.bind, bind] at h
    | ok m1 =>
      rw [hp] at h
      simp only [bind, Except.bind] at h
      rw [ih m1 m' h, processLine_map_fst hp]

/-- **C9.**  `get_measurements` always returns a map whose keys are exactly
the configured field names, in order; in particular on an empty queue the
call succeeds and every field's series is the empty list. -/
theorem get_measurements_keys
    (fields : List (String × ResourceMonitor.FieldInfo)) :
    (∀ (queue : List String) (res : List (String × List JVal)),
      ResourceMonitor.get_measurements fields queue = .ok res →
      res.map Prod.fst = fields.map Prod.fst) ∧
    ResourceMonitor.get_measurements fields [] =
      .ok (fields.map (fun p => (p.1, ([] : List JVal)))) := by
  constructor
  · intro queue res h
    rw [gmFold_map_fst fields queue _ res h]
    simp
  · rfl

/-- Witness for C9: one configured field `t`, exercised both on the
one-line queue `["hello"]` and on the empty queue. -/
theorem get_measurements_keys_witness :
    ([("t", [JVal.jstr "hello"])].map Prod.fst =
      [("t", (⟨"str", 0, -1⟩ : ResourceMonitor.FieldInfo))].map Prod.fst) ∧
    ResourceMonitor.get_measurements [("t", ⟨"str", 0, -1⟩)] [] =
      .ok [("t", [])] :=
  ⟨(get_measurements_keys [("t", ⟨"str", 0, -1⟩)]).1 ["hello"]
      [("t", [JVal.jstr "hello"])] rfl,
   (get_measurements_keys [("t", ⟨"str", 0, -1⟩)]).2⟩

/-- **C3, counterexample.**  Two primitive scalar values of different Python
types meeting at a non-root key are a hard failure, not an overwrite: an
`int` destination value and a `str` source value (both primitive scalars)
fail the member assert, because `both_primitive` additionally requires
`type(dest[key]) is type(source[key])`. -/
theorem update_primitive_mismatch_cex :
    ConfigurationLoader.isPrimitive (.jint 1) = true ∧
    ConfigurationLoader.isPrimitive (.jstr "a") = true ∧
    ConfigurationLoader.update [("k", .jint 1)] [("k", .jstr "a")] false =
      .error (.assertionError
        "Members of configuration must be either lists or primitive types") := by
  refine ⟨rfl, rfl, ?_⟩
  simp [ConfigurationLoader.update, pyLookup, ConfigurationLoader.sameType,
    ConfigurationLoader.isPrimitive, ConfigurationLoader.typeName]

/-- **C3, amended.**  In a non-root merge, for a key bound in the
destination to a primitive scalar `dv` whose incoming source value `sv` is
also a primitive scalar, the source value overwrites the destination entry
directly *iff the two primitives have the same Python type*; primitives of
different types — like a mapping meeting a primitive — are a hard
failure. -/
theorem update_member_primitive_rules
    (dest : List (String × JVal)) (key : String) (dv sv : JVal)
    (rest : List (String × JVal))
    (h : pyLookup dest key = some dv)
    (hdp : ConfigurationLoader.isPrimitive dv = true)
    (hsp : ConfigurationLoader.isPrimitive sv = true) :
    (ConfigurationLoader.update dest ((key, sv) :: rest) false =
      if ConfigurationLoader.sameType dv sv = true then
        ConfigurationLoader.update (setKey dest key sv) rest false
      else .error (.assertionError
        "Members of configuration must be either lists or primitive types")) ∧
    (∀ sf : List (String × JVal),
      ConfigurationLoader.update dest ((key, .jobj sf) :: rest) false =
        .error (.assertionError
          "Members of configuration must be either lists or primitive types")) := by
  constructor
  · conv_lhs => rw [ConfigurationLoader.update.eq_def]
    dsimp only
    rw [h]
    cases dv <;> cases sv <;>
      simp_all [ConfigurationLoader.sameType, ConfigurationLoader.typeName,
        ConfigurationLoader.isPrimitive]
  · intro sf
    conv_lhs => rw [ConfigurationLoader.update.eq_def]
    dsimp only
    rw [h]
    cases dv <;>
      simp_all [ConfigurationLoader.sameType, ConfigurationLoader.typeName,
        ConfigurationLoader.isPrimitive]

/-- Witness for the amended C3: overwriting `{k: 1}` with `{k: 2}` (same
type) succeeds and yields `{k: 2}`; `{k: {}}` meeting the primitive is a
hard failure. -/
theorem update_member_primitive_rules_witness :
    ConfigurationLoader.update [("k", .jint 1)] [("k", .jint 2)] false =
      .ok [("k", .jint 2)] ∧
    ConfigurationLoader.update [("k", .jint 1)] [("k", .jobj [])] false =
      .error (.assertionError
        "Members of configuration must be either lists or primitive types") := by
  have h := update_member_primitive_rules [("k", .jint 1)] "k" (.jint 1)
    (.jint 2) [] rfl rfl rfl
  constructor
  · rw [h.1]
    simp [ConfigurationLoader.sameType, ConfigurationLoader.typeName, setKey,
      ConfigurationLoader.update]
  · exact h.2 []

/-- **C4.**  The sequence asymmetry of the merge: at root level a source
sequence is appended to the destination sequence bound to the same key
(sequences accumulate), while at non-root level a source sequence replaces
the destination value wholesale (with a deep copy, which on immutable Lean
values is the value itself). -/
theorem update_sequence_asymmetry
    (dest : List (String × JVal)) (key : String) (dl sl : List JVal)
    (rest : List (String × JVal))
    (h : pyLookup dest key = some (.jlist dl)) :
    ConfigurationLoader.update dest ((key, .jlist sl) :: rest) true =
      ConfigurationLoader.update (setKey dest key (.jlist (dl ++ sl))) rest
        true ∧
    ConfigurationLoader.update dest ((key, .jlist sl) :: rest) false =
      ConfigurationLoader.update (setKey dest key (.jlist sl)) rest false := by
  constructor <;>
    (conv_lhs => rw [ConfigurationLoader.update.eq_def]) <;> dsimp only <;>
      rw [h] <;> rfl

/-- Witness for C4: merging `{e: [2]}` into `{e: [1]}` appends at root level
(`{e: [1, 2]}`) and replaces at non-root level (`{e: [2]}`). -/
theorem update_sequence_asymmetry_witness :
    ConfigurationLoader.update [("e", .jlist [.jint 1])]
      [("e", .jlist [.jint 2])] true = .ok [("e", .jlist [.jint 1, .jint 2])] ∧
    ConfigurationLoader.update [("e", .jlist [.jint 1])]
      [("e", .jlist [.jint 2])] false = .ok [("e", .jlist [.jint 2])] := by
  have h := update_sequence_asymmetry [("e", .jlist [.jint 1])] "e" [.jint 1]
    [.jint 2] [] rfl
  constructor
  · rw [h.1]
    simp [ConfigurationLoader.update, setKey]
  · rw [h.2]
    simp [ConfigurationLoader.update, setKey]

theorem bareVal_of_not_obj {v : JVal} (h : v.isObj = false) :
    ConfigurationLoader.bareVal v = v := by
  cases v <;> simp_all [JVal.isObj, ConfigurationLoader.bareVal]

theorem cleanParams_ok {ps : List (String × JVal)}
    (h : ∀ p ∈ ps, descOk p.2 = true) :
    ConfigurationLoader.cleanParams ps =
      .ok (ps.map (fun p => (p.1, ConfigurationLoader.bareVal p.2))) := by
  induction ps with
  | nil => rfl
  | cons hd tl ih =>
    obtain ⟨name, val⟩ := hd
    have hhd := h (name, val) (by simp)
    have htl : ∀ p ∈ tl, descOk p.2 = true := fun p hp => h p (by simp [hp])
    cases val
    case jobj f =>
      simp only [descOk] at hhd
      obtain ⟨w, hw⟩ := Option.isSome_iff_exists.mp hhd
      simp [ConfigurationLoader.cleanParams, hw, ih htl,
        ConfigurationLoader.bareVal, bind, Except.bind]
    all_goals
      simp [ConfigurationLoader.cleanParams, ih htl,
        ConfigurationLoader.bareVal, bind, Except.bind]

/-- **C6.**  `ConfigurationLoader.remove_info` is a pure transformation (the
embedding is a Lean function, mirroring the deepcopy-then-mutate discipline
of the source, which never modifies its argument): a document without a
`parameters` section is returned unchanged; in a document with one, every
descriptor object is replaced by its bare `val` field while bare values pass
through unchanged; and a document whose `parameters` section contains no
descriptor objects is returned deep-equal to the input. -/
theorem remove_info_spec (config : List (String × JVal)) :
    (pyLookup config "parameters" = none →
      ConfigurationLoader.remove_info config = .ok config) ∧
    (∀ ps, pyLookup config "parameters" = some (.jobj ps) →
      ((∀ p ∈ ps, descOk p.2 = true) →
        ConfigurationLoader.remove_info config =
          .ok (setKey config "parameters"
            (.jobj (ps.map (fun p => (p.1, ConfigurationLoader.bareVal p.2)))))) ∧
      ((∀ p ∈ ps, p.2.isObj = false) →
        ConfigurationLoader.remove_info config = .ok config)) := by
  constructor
  · intro h
    simp [ConfigurationLoader.remove_info, h]
  · intro ps hps
    constructor
    · intro hok
      simp [ConfigurationLoader.remove_info, hps, cleanParams_ok hok, bind,
        Except.bind]
    · intro hno
      have hok : ∀ p ∈ ps, descOk p.2 = true := by
        intro p hp
        have h2 := hno p hp
        cases hv : p.2 <;> simp_all [JVal.isObj, descOk]
      have hmap : ps.map (fun p => (p.1, ConfigurationLoader.bareVal p.2)) =
          ps := by
        have hcongr : ∀ p ∈ ps,
            (p.1, ConfigurationLoader.bareVal p.2) = id p := by
          intro p hp
          rw [bareVal_of_not_obj (hno p hp)]
          rfl
        rw [List.map_congr_left hcongr, List.map_id]
      simp [ConfigurationLoader.remove_info, hps, cleanParams_ok hok, hmap,
        bind, Except.bind, setKey_lookup_eq_self hps]

/-- Witness for C6 on concrete documents: one without a `parameters`
section, one whose `parameters` hold a descriptor and a bare value, and one
whose `parameters` hold only bare values. -/
theorem remove_info_spec_witness :
    ConfigurationLoader.remove_info [("extensions", .jlist [])] =
      .ok [("extensions", .jlist [])] ∧
    ConfigurationLoader.remove_info
      [("parameters", .jobj [("p", .jobj [("val", .jint 3)]), ("q", .jstr "s")])] =
      .ok [("parameters", .jobj [("p", .jint 3), ("q", .jstr "s")])] ∧
    ConfigurationLoader.remove_info [("parameters", .jobj [("q", .jstr "s")])] =
      .ok [("parameters", .jobj [("q", .jstr "s")])] := by
  refine ⟨(remove_info_spec [("extensions", .jlist [])]).1 rfl, ?_, ?_⟩
  · have h := ((remove_info_spec
      [("parameters", .jobj [("p", .jobj [("val", .jint 3)]), ("q", .jstr "s")])]).2
      [("p", .jobj [("val", .jint 3)]), ("q", .jstr "s")] rfl).1 (by decide)
    rw [h]
    rfl
  · exact ((remove_info_spec [("parameters", .jobj [("q", .jstr "s")])]).2
      [("q", .jstr "s")] rfl).2 (by decide)

theorem upiGo_step (pi0 : List (String × JVal)) (n0 : String) (v0 : JVal)
    (rest : List (String × JVal)) (u : Bool) :
    (∃ e, ConfigurationLoader.upiGo pi0 ((n0, v0) :: rest) u = .error e) ∨
    (∃ X, ConfigurationLoader.upiGo pi0 ((n0, v0) :: rest) u =
      ConfigurationLoader.upiGo (dictSet pi0 n0 X) rest u) := by
  simp only [ConfigurationLoader.upiGo]
  split
  · exact Or.inl ⟨_, rfl⟩
  · split
    · rename_i vf
      cases hv : pyLookup vf "val" with
      | none =>
        dsimp only
        exact Or.inl ⟨_, rfl⟩
      | some v =>
        dsimp only
        cases hpi : pyLookup pi0 n0 with
        | none =>
          dsimp only
          exact Or.inr ⟨_, rfl⟩
        | some info =>
          dsimp only
          cases info <;>
            simp only [ConfigurationLoader.setInfoVal, bind, Except.bind] <;>
            first
            | exact Or.inl ⟨_, rfl⟩
            | exact Or.inr ⟨_, rfl⟩
    · rename_i v hne
      split
      · cases hpi : pyLookup pi0 n0 with
        | none =>
          dsimp only
          exact Or.inr ⟨_, rfl⟩
        | some info =>
          dsimp only
          cases info <;>
            simp only [ConfigurationLoader.setInfoVal, bind, Except.bind] <;>
            first
            | exact Or.inl ⟨_, rfl⟩
            | exact Or.inr ⟨_, rfl⟩
      · exact Or.inl ⟨_, rfl⟩

theorem upiGo_key_mono {u : Bool} {ps : List (String × JVal)} :
    ∀ {pi0 pi : List (String × JVal)} {name : String},
      ConfigurationLoader.upiGo pi0 ps u = .ok pi →
      (pyLookup pi0 name).isSome = true → (pyLookup pi name).isSome = true := by
  induction ps with
  | nil =>
    intro pi0 pi name h hs
    simp only [ConfigurationLoader.upiGo, Except.ok.injEq] at h
    rwa [← h]
  | cons hd tl ih =>
    intro pi0 pi name h hs
    obtain ⟨n0, v0⟩ := hd
    rcases upiGo_step pi0 n0 v0 tl u with ⟨e, he⟩ | ⟨X, hX⟩
    · rw [he] at h
      exact absurd h (by simp)
    · rw [hX] at h
      refine ih h ?_
      rw [pyLookup_dictSet_isSome]
      simp [hs]

theorem upiGo_adds_key {u : Bool} {ps : List (String × JVal)} :
    ∀ {pi0 pi : List (String × JVal)} {name : String},
      ConfigurationLoader.upiGo pi0 ps u = .ok pi →
      (pyLookup ps name).isSome = true → (pyLookup pi name).isSome = true := by
  induction ps with
  | nil =>
    intro pi0 pi name h hs
    simp [pyLookup] at hs
  | cons hd tl ih =>
    intro pi0 pi name h hs
    obtain ⟨n0, v0⟩ := hd
    rcases upiGo_step pi0 n0 v0 tl u with ⟨e, he⟩ | ⟨X, hX⟩
    · rw [he] at h
      exact absurd h (by simp)
    · rw [hX] at h
      by_cases hn : n0 = name
      · subst hn
        refine upiGo_key_mono h ?_
        rw [pyLookup_dictSet_isSome]
        simp
      · refine ih h ?_
        simp only [pyLookup, if_neg hn] at hs
        exact hs

theorem upiGo_system_redef_fails {ps : List (String × JVal)} :
    ∀ {pi0 : List (String × JVal)} {name : String},
      (pyLookup pi0 name).isSome = true →
      (pyLookup ps name).isSome = true →
      ∃ e, ConfigurationLoader.upiGo pi0 ps false = .error e := by
  induction ps with
  | nil =>
    intro pi0 name h1 h2
    simp [pyLookup] at h2
  | cons hd tl ih =>
    intro pi0 name h1 h2
    obtain ⟨n0, v0⟩ := hd
    by_cases hn : n0 = name
    · subst hn
      refine ⟨.assertionError ("Trying to redefine parameter " ++ n0), ?_⟩
      simp only [ConfigurationLoader.upiGo]
      rw [if_pos ⟨by simp, h1⟩]
    · rcases upiGo_step pi0 n0 v0 tl false with ⟨e, he⟩ | ⟨X, hX⟩
      · exact ⟨e, he⟩
      · have h1' : (pyLookup (dictSet pi0 n0 X) name).isSome = true := by
          rw [pyLookup_dictSet_isSome]
          simp [h1]
        have h2' : (pyLookup tl name).isSome = true := by
          simp only [pyLookup, if_neg hn] at h2
          exact h2
        obtain ⟨e, he⟩ := ih h1' h2'
        exact ⟨e, hX ▸ he⟩

/-- **C2, counterexample.**  Loading a second system fragment that redefines
parameter `x` does fail — but with an `AssertionError` raised by the
redefinition `assert`, not with a `ConfigurationError` as the claim
states. -/
theorem system_redefinition_not_configerror :
    ConfigurationLoader.update_param_info []
      [("parameters", .jobj [("x", .jint 1)])] false =
      .ok [("x", .jobj [("val", .jint 1), ("type", .jstr "int"),
        ("desc", .jstr "No description for this parameter provided (it was automatically converted from its value).")])] ∧
    ConfigurationLoader.update_param_info
      [("x", .jobj [("val", .jint 1), ("type", .jstr "int"),
        ("desc", .jstr "No description for this parameter provided (it was automatically converted from its value).")])]
      [("parameters", .jobj [("x", .jint 2)])] false =
      .error (.assertionError "Trying to redefine parameter x") ∧
    (PyError.assertionError "Trying to redefine parameter x").isConfigError =
      false :=
  ⟨rfl, rfl, rfl⟩

/-- **C2, amended.**  For every two system configuration fragments
(`is_user_config = false`) whose `parameters` sections both define a
parameter of the same name, loading the second after a successful load of
the first fails — with an `AssertionError` from the redefinition `assert`
(not a `ConfigurationError`) — and the quantification over both fragments
makes the failure independent of the load order. -/
theorem system_redefinition_fails
    (c1 c2 ps1 ps2 : List (String × JVal)) (name : String)
    (pi1 : List (String × JVal))
    (h1 : pyLookup c1 "parameters" = some (.jobj ps1))
    (h2 : pyLookup c2 "parameters" = some (.jobj ps2))
    (hn1 : (pyLookup ps1 name).isSome = true)
    (hn2 : (pyLookup ps2 name).isSome = true)
    (hload : ConfigurationLoader.update_param_info [] c1 false = .ok pi1) :
    ∃ e, ConfigurationLoader.update_param_info pi1 c2 false = .error e := by
  simp only [ConfigurationLoader.update_param_info, h1] at hload
  simp only [ConfigurationLoader.update_param_info, h2]
  exact upiGo_system_redef_fails (upiGo_adds_key hload hn1) hn2

/-- Witness for the amended C2 at two concrete one-parameter fragments. -/
theorem system_redefinition_fails_witness :
    ∃ e, ConfigurationLoader.update_param_info
      [("x", .jobj [("val", .jint 1), ("type", .jstr "int"),
        ("desc", .jstr "No description for this parameter provided (it was automatically converted from its value).")])]
      [("parameters", .jobj [("x", .jint 2)])] false = .error e :=
  system_redefinition_fails
    [("parameters", .jobj [("x", .jint 1)])]
    [("parameters", .jobj [("x", .jint 2)])]
    [("x", .jint 1)] [("x", .jint 2)] "x" _ rfl rfl rfl rfl rfl

theorem loadGo_append (cfg pi : List (String × JVal))
    (xs ys : List (String × Except String (List (String × JVal)))) :
    ConfigurationLoader.loadGo cfg pi (xs ++ ys) =
      (ConfigurationLoader.loadGo cfg pi xs) >>= fun r =>
        ConfigurationLoader.loadGo r.1 r.2 ys := by
  induction xs generalizing cfg pi with
  | nil => simp [ConfigurationLoader.loadGo, bind, Except.bind]
  | cons hd tl ih =>
    obtain ⟨p, pr⟩ := hd
    cases pr with
    | error m => simp [ConfigurationLoader.loadGo, bind, Except.bind]
    | ok sec =>
      simp only [List.cons_append, ConfigurationLoader.loadGo]
      cases h1 : ConfigurationLoader.update_param_info pi sec false with
      | error e => simp [bind, Except.bind, h1]
      | ok pi' =>
        cases h2 : ConfigurationLoader.remove_info sec with
        | error e => simp [bind, Except.bind, h1, h2]
        | ok clean =>
          cases h3 : ConfigurationLoader.update cfg clean true with
          | error e => simp [bind, Except.bind, h1, h2, h3]
          | ok cfg' => simp [bind, Except.bind, h1, h2, h3, ih]

/-- **C5, counterexample.**  `load` over a well-formed first file and a
malformed second file fails by re-raising the parse error *unchanged*: the
raised error carries exactly the JSON parser's message, which does not
contain the offending file's path (`"bad.json"`) — the path appears only in
the log message, not on the raised error. -/
theorem load_error_lacks_path_cex :
    ConfigurationLoader.load
      [("good.json", .ok [("parameters", .jobj [("p", .jint 1)])]),
       ("bad.json", .error "Expecting value: line 1 column 1 (char 0)")] =
      .error (.valueError "Expecting value: line 1 column 1 (char 0)") ∧
    strContains "Expecting value: line 1 column 1 (char 0)" "bad.json" =
      false := by
  constructor
  · simp [ConfigurationLoader.load, ConfigurationLoader.loadGo,
      ConfigurationLoader.update_param_info, ConfigurationLoader.upiGo,
      ConfigurationLoader.remove_info, ConfigurationLoader.cleanParams,
      ConfigurationLoader.update, pyLookup, dictSet, setKey, bind, Except.bind,
      ConfigurationLoader.inferValType, ConfigurationLoader.typeName]
  · rfl

/-- **C5, amended.**  When a configuration file fails to parse, `load` fails
by re-raising the original `ValueError` unchanged after logging: the raised
error is exactly the parser's message `m`, whatever the offending path `p`
is — the file path is attached to the log entry, not to the raised
error. -/
theorem load_parse_error_propagates
    (pre : List (String × Except String (List (String × JVal))))
    (p m : String)
    (rest : List (String × Except String (List (String × JVal))))
    (cfg pi : List (String × JVal))
    (hpre : ConfigurationLoader.loadGo [] [] pre = .ok (cfg, pi)) :
    ConfigurationLoader.load (pre ++ (p, .error m) :: rest) =
      .error (.valueError m) := by
  simp [ConfigurationLoader.load, loadGo_append, hpre, bind, Except.bind,
    ConfigurationLoader.loadGo]

/-- Witness for the amended C5: one well-formed file followed by one
malformed file. -/
theorem load_parse_error_propagates_witness :
    ConfigurationLoader.load
      [("good.json", .ok [("parameters", .jobj [("p", .jint 1)])]),
       ("bad.json", .error "No JSON object could be decoded")] =
      .error (.valueError "No JSON object could be decoded") :=
  load_parse_error_propagates
    [("good.json", .ok [("parameters", .jobj [("p", .jint 1)])])]
    "bad.json" "No JSON object could be decoded" []
    [("parameters", .jobj [("p", .jint 1)])]
    [("p", .jobj [("val", .jint 1), ("type", .jstr "int"),
      ("desc", .jstr "No description for this parameter provided (it was automatically converted from its value).")])]
    (by simp [ConfigurationLoader.loadGo, ConfigurationLoader.update_param_info,
      ConfigurationLoader.upiGo, ConfigurationLoader.remove_info,
      ConfigurationLoader.cleanParams, ConfigurationLoader.update, pyLookup,
      dictSet, setKey, bind, Except.bind, ConfigurationLoader.inferValType,
      ConfigurationLoader.typeName])
